import Mathlib

/-!
Shallow embedding of the Express backend in `src/index.js` (with the earlier
revision of the same server found in `src/unnamed/part_000`).

The server registers three routes (`GET /api/health`,
`POST /api/compress-image`, `POST /api/generate-image`).  Both POST handlers
are pure request/response functions once the two external services — the
`sharp` image codec and the Bytez generation SDK — are abstracted as oracles
passed in as arguments.  JavaScript/JSON values visible to the handlers are
modelled by `JSVal`; machine floating point never matters here because the
only numeric operations are `parseInt`, clamping and comparisons on integer
values.
-/

/-- JSON/JavaScript values as the Express handlers see them. -/
inductive JSVal where
  | null
  | undefined
  | boolean (b : Bool)
  | number (n : Int)
  | string (s : String)
  | array (elems : List JSVal)
  | object (fields : List (String × JSVal))

/-- JavaScript truthiness of a value (used by `!x` and `a || b` in the source). -/
def JSVal.truthy : JSVal → Bool
  | .null => false
  | .undefined => false
  | .boolean b => b
  | .number n => decide (n ≠ 0)
  | .string s => decide (s ≠ "")
  | .array _ => true
  | .object _ => true

/-- Property lookup in an object's field list; `undefined` when absent. -/
def objGet : List (String × JSVal) → String → JSVal
  | [], _ => .undefined
  | (k', v) :: rest, k => if k' == k then v else objGet rest k

/-- JavaScript property access `v.k`: field lookup on objects, `undefined` on
other values (the handlers never access a property of `null`/`undefined`
without the source guarding first). -/
def JSVal.get : JSVal → String → JSVal
  | .object fs, k => objGet fs k
  | _, _ => .undefined

/-- JavaScript `a || b` on values: `a` when truthy, otherwise `b`. -/
def jsOr (a b : JSVal) : JSVal := if a.truthy then a else b

/-- JavaScript `a || b` on strings (empty string is falsy). -/
def jsOrStr (a b : String) : String := if a = "" then b else a

/-- Model of `String.prototype.trim`: strip leading and trailing whitespace. -/
def jsTrim (s : String) : String :=
  ⟨((s.data.dropWhile Char.isWhitespace).reverse.dropWhile Char.isWhitespace).reverse⟩

/-- Model of `String.prototype.toLowerCase`. -/
def jsToLower (s : String) : String := ⟨s.data.map Char.toLower⟩

/-- Whether `pre` is a prefix of `l` (character lists). -/
def listPrefixOf : List Char → List Char → Bool
  | [], _ => true
  | _ :: _, [] => false
  | a :: as, b :: bs => a == b && listPrefixOf as bs

/-- Whether `sub` occurs as a contiguous segment of `l` (character lists). -/
def listContainsSeg (sub : List Char) : List Char → Bool
  | [] => listPrefixOf sub []
  | c :: t => listPrefixOf sub (c :: t) || listContainsSeg sub t

/-- Model of `String.prototype.includes` (substring containment). -/
def jsIncludes (s sub : String) : Bool := listContainsSeg sub.data s.data

/-- The 64 characters of the standard base64 alphabet. -/
def base64Alphabet : List Char :=
  "ABCDEFGHIJKLMNOPQRSTUVWXYZabcdefghijklmnopqrstuvwxyz0123456789+/".data

/-- Character of the base64 alphabet at a 6-bit index. -/
def b64c (n : Nat) : Char := base64Alphabet.getD n 'A'

/-- Base64 encoding of a byte sequence with `=` padding, as produced by
`Buffer.prototype.toString with argument base64`.  Bytes are `Nat`s reduced
mod 256. -/
def base64Encode : List Nat → String
  | [] => ""
  | [b1] =>
    ⟨[b64c (b1 % 256 / 4), b64c (b1 % 256 % 4 * 16), '=', '=']⟩
  | [b1, b2] =>
    ⟨[b64c (b1 % 256 / 4), b64c (b1 % 256 % 4 * 16 + b2 % 256 / 16),
      b64c (b2 % 256 % 16 * 4), '=']⟩
  | b1 :: b2 :: b3 :: rest =>
    (⟨[b64c (b1 % 256 / 4), b64c (b1 % 256 % 4 * 16 + b2 % 256 / 16),
       b64c (b2 % 256 % 16 * 4 + b3 % 256 / 64), b64c (b3 % 256 % 64)]⟩ : String)
      ++ base64Encode rest

/-- Model of JavaScript `parseInt(s, 10)`: skip leading whitespace, read an
optional sign and then the longest prefix of decimal digits; `none` models
`NaN` (no digits).  `Number.isFinite` on the result is `Option.isSome` since
`parseInt` never yields an infinity. -/
def jsParseInt (s : String) : Option Int :=
  let cs := s.data.dropWhile Char.isWhitespace
  let signed : Int × List Char :=
    match cs with
    | '-' :: rest => (-1, rest)
    | '+' :: rest => (1, rest)
    | _ => (1, cs)
  let ds := signed.2.takeWhile Char.isDigit
  if ds.isEmpty then none
  else some (signed.1 * (ds.foldl (fun a c => a * 10 + (c.toNat - 48)) 0 : Nat))

/-- Model of `parseInt(field, 10)` on an optional form field: an absent field
is `undefined`, and `parseInt(undefined, 10)` is `NaN`. -/
def jsParseIntOpt : Option String → Option Int
  | none => none
  | some s => jsParseInt s

/-- An HTTP response as the handlers build it: a status code and a JSON body. -/
structure HttpResponse where
  status : Nat
  body : JSVal

/-- Body of an error response, `res.json with an error field`. -/
def errBody (msg : String) : JSVal := .object [("error", .string msg)]

/-! ## POST /api/compress-image (src/index.js lines 46–115) -/

/-- An uploaded file as multer's memory storage presents it on `req.file`. -/
structure UploadedFile where
  buffer : List Nat
  mimetype : String
  size : Nat

/-- The multipart text fields of a compress-image request (multer yields
strings; an absent field reads as `undefined`). -/
structure CompressBody where
  quality : Option String
  width : Option String
  format : Option String

/-- Output format selected for the sharp pipeline, with the options the
source passes (`jpeg` with quality and mozjpeg, `png` with fixed compression
settings and no quality, `webp` with quality). -/
inductive OutFormat where
  | jpeg (quality : Int)
  | png
  | webp (quality : Int)

/-- Lines 57–59: `Number.isFinite(qualityInput) ? clamp to 1..100 : 80`. -/
def effQuality (quality : Option String) : Int :=
  match jsParseIntOpt quality with
  | some q => min (max q 1) 100
  | none => 80

/-- Lines 61–63: `Number.isFinite(widthInput) and widthInput > 0 ? widthInput : 1600`. -/
def effWidth (width : Option String) : Int :=
  match jsParseIntOpt width with
  | some w => if 0 < w then w else 1600
  | none => 1600

/-- Line 55: `(req.body?.format || 'webp').toLowerCase()`. -/
def effFormatInput (format : Option String) : String :=
  jsToLower (match format with
    | some s => if s = "" then "webp" else s
    | none => "webp")

/-- Lines 74–94: choose the sharp output format and the reported MIME type
from the sanitized `format` field and the uploaded file's mimetype. -/
def selectOutput (formatInput inputMime : String) (quality : Int) :
    OutFormat × String :=
  if formatInput = "original" then
    if jsIncludes inputMime "jpeg" || jsIncludes inputMime "jpg" then
      (.jpeg quality, "image/jpeg")
    else if jsIncludes inputMime "png" then (.png, "image/png")
    else (.webp quality, "image/webp")
  else (.webp quality, "image/webp")

/-- The `POST /api/compress-image` handler.  `enc` abstracts the sharp
pipeline of lines 66–96 (rotate, resize to the target width, encode in the
selected format): it receives the upload's bytes, the target width and the
selected output format, and returns the re-encoded bytes, or `none` when
`toBuffer` rejects, which the catch block turns into a 500. -/
def compressImage (file : Option UploadedFile) (body : CompressBody)
    (enc : List Nat → Int → OutFormat → Option (List Nat)) : HttpResponse :=
  match file with
  | none => ⟨400, errBody "Image file is required"⟩
  | some f =>
    let quality := effQuality body.quality
    let targetWidth := effWidth body.width
    let formatInput := effFormatInput body.format
    let fm := selectOutput formatInput f.mimetype quality
    match enc f.buffer targetWidth fm.1 with
    | none =>
      ⟨500, errBody "Failed to compress image. Please try again with a different file."⟩
    | some bytes =>
      let dataUrl := "data:" ++ fm.2 ++ ";base64," ++ base64Encode bytes
      ⟨200, .object [("success", .boolean true), ("mimeType", .string fm.2),
        ("dataUrl", .string dataUrl), ("originalSize", .number (f.size : Int)),
        ("compressedSize", .number (bytes.length : Int)),
        ("quality", .number quality), ("width", .number targetWidth)]⟩

/-! ## POST /api/generate-image (src/index.js lines 118–184) -/

/-- Outcome of `await model.run(...)` on the Bytez SDK: either it resolves to
a record with an `error` and an `output` field, or the awaited promise
rejects/throws with a message (caught by the handler's catch block).  The
resolved `error` is `none` for a falsy error, or `some m` for a truthy error
whose `.message` property reads as the string `m` (the empty string models an
absent or empty message, which the source replaces via `||`). -/
inductive RunOutcome where
  | ok (error : Option String) (output : JSVal)
  | thrown (message : String)

/-- Message of the TypeError thrown by `const ... = req.body` when the body is
`null`. -/
def destructureNullMsg : String :=
  "Cannot destructure property prompt of req.body as it is null."

/-- Message of the TypeError thrown by `const ... = req.body` when the body is
`undefined`. -/
def destructureUndefMsg : String :=
  "Cannot destructure property prompt of req.body as it is undefined."

/-- Message of the TypeError thrown by `prompt.trim()` when `prompt` is a
truthy non-string. -/
def trimNotFunctionMsg : String := "prompt.trim is not a function"

/-- Lines 157–165: extract an image URL from the provider output (`output[0]`
for arrays, the string itself, `url || image || data` for objects, otherwise
the initial `null`). -/
def extractImageUrl : JSVal → JSVal
  | .array [] => .undefined
  | .array (x :: _) => x
  | .string s => .string s
  | .object fs => jsOr (objGet fs "url") (jsOr (objGet fs "image") (objGet fs "data"))
  | _ => .null

/-- Lines 151–176: the part of the handler that inspects a resolved, no-error
`output`. -/
def outputStage (output : JSVal) : HttpResponse :=
  if output.truthy = false then ⟨500, errBody "No output received from the API"⟩
  else
    let imageUrl := extractImageUrl output
    if imageUrl.truthy = false then
      ⟨500, errBody "Could not extract image URL from response"⟩
    else ⟨200, .object [("success", .boolean true), ("imageUrl", imageUrl)]⟩

/-- Lines 142–176 plus the catch block: the part of the handler that inspects
the outcome of `model.run`. -/
def runStage : RunOutcome → HttpResponse
  | .thrown m => ⟨500, errBody (jsOrStr m "Internal server error")⟩
  | .ok (some em) _ => ⟨500, errBody (jsOrStr em "Failed to generate image")⟩
  | .ok none output => outputStage output

/-- Lines 120–176 of the handler after the body has been destructured: prompt
validation (lines 122–126), the API-key check (lines 129–135), and the call
to `model.run` with the trimmed prompt (line 142). -/
def generateImageCore (key : Option String) (run : String → RunOutcome)
    (body : JSVal) : HttpResponse × List String :=
  let prompt := body.get "prompt"
  if prompt.truthy = false then (⟨400, errBody "Prompt is required"⟩, [])
  else
    match prompt with
    | .string s =>
      if jsTrim s = "" then (⟨400, errBody "Prompt is required"⟩, [])
      else
        match key with
        | none => (⟨500, errBody "Bytez API key is not configured"⟩, [])
        | some k =>
          if k = "" then (⟨500, errBody "Bytez API key is not configured"⟩, [])
          else (runStage (run (jsTrim s)), [jsTrim s])
    | _ => (⟨500, errBody trimNotFunctionMsg⟩, [])

/-- The `POST /api/generate-image` handler of `src/index.js`, instrumented
with the list of arguments passed to `model.run` during the request.  `key`
is `process.env.BYTEZ_API_KEY` (absent or a string; the empty string is falsy
at line 131), `run` abstracts the Bytez model, and `body` is the parsed JSON
request body (destructuring it throws on `null`/`undefined`, which the catch
block turns into a 500). -/
def generateImageRun (key : Option String) (run : String → RunOutcome)
    (body : JSVal) : HttpResponse × List String :=
  match body with
  | .null => (⟨500, errBody destructureNullMsg⟩, [])
  | .undefined => (⟨500, errBody destructureUndefMsg⟩, [])
  | _ => generateImageCore key run body

/-- The `POST /api/generate-image` handler (response only). -/
def generateImage (key : Option String) (run : String → RunOutcome)
    (body : JSVal) : HttpResponse :=
  (generateImageRun key run body).1

/-! ## POST /api/generate-image of the earlier revision
(src/unnamed/part_000 lines 28–94), translated independently. -/

/-- Lines 67–75 of part_000: extract an image URL from the provider output. -/
def extractImageUrlP0 : JSVal → JSVal
  | .array [] => .undefined
  | .array (x :: _) => x
  | .string s => .string s
  | .object fs => jsOr (objGet fs "url") (jsOr (objGet fs "image") (objGet fs "data"))
  | _ => .null

/-- Lines 61–86 of part_000: handling of a resolved, no-error output. -/
def outputStageP0 (output : JSVal) : HttpResponse :=
  if output.truthy = false then ⟨500, errBody "No output received from the API"⟩
  else
    let imageUrl := extractImageUrlP0 output
    if imageUrl.truthy = false then
      ⟨500, errBody "Could not extract image URL from response"⟩
    else ⟨200, .object [("success", .boolean true), ("imageUrl", imageUrl)]⟩

/-- Lines 52–86 of part_000 plus its catch block. -/
def runStageP0 : RunOutcome → HttpResponse
  | .thrown m => ⟨500, errBody (jsOrStr m "Internal server error")⟩
  | .ok (some em) _ => ⟨500, errBody (jsOrStr em "Failed to generate image")⟩
  | .ok none output => outputStageP0 output

/-- Lines 30–52 of part_000 after the body has been destructured. -/
def generateImageCoreP0 (key : Option String) (run : String → RunOutcome)
    (body : JSVal) : HttpResponse × List String :=
  let prompt := body.get "prompt"
  if prompt.truthy = false then (⟨400, errBody "Prompt is required"⟩, [])
  else
    match prompt with
    | .string s =>
      if jsTrim s = "" then (⟨400, errBody "Prompt is required"⟩, [])
      else
        match key with
        | none => (⟨500, errBody "Bytez API key is not configured"⟩, [])
        | some k =>
          if k = "" then (⟨500, errBody "Bytez API key is not configured"⟩, [])
          else (runStageP0 (run (jsTrim s)), [jsTrim s])
    | _ => (⟨500, errBody trimNotFunctionMsg⟩, [])

/-- The `POST /api/generate-image` handler of `src/unnamed/part_000`,
instrumented like `generateImageRun`. -/
def generateImageRunP0 (key : Option String) (run : String → RunOutcome)
    (body : JSVal) : HttpResponse × List String :=
  match body with
  | .null => (⟨500, errBody destructureNullMsg⟩, [])
  | .undefined => (⟨500, errBody destructureUndefMsg⟩, [])
  | _ => generateImageCoreP0 key run body

/-! ## Route table and dispatch (src/index.js lines 41, 46, 118) -/

/-- HTTP methods used by the server's routes. -/
inductive Method where
  | GET
  | POST
deriving DecidableEq

/-- The routes registered on the Express app, in registration order:
`app.get('/api/health', ...)`, `app.post('/api/compress-image', ...)`,
`app.post('/api/generate-image', ...)`. -/
def routes : List (Method × String) :=
  [(.GET, "/api/health"), (.POST, "/api/compress-image"), (.POST, "/api/generate-image")]

/-- An incoming HTTP request: method, path, and the request data each handler
reads (the parsed JSON body for generate-image; the uploaded file and the
multipart text fields for compress-image). -/
structure Request where
  method : Method
  path : String
  jsonBody : JSVal
  file : Option UploadedFile
  formBody : CompressBody

/-- Dispatch a request to the registered handlers, in registration order;
`none` models Express's default 404 for an unmatched route. -/
def serve (key : Option String) (run : String → RunOutcome)
    (enc : List Nat → Int → OutFormat → Option (List Nat)) (r : Request) :
    Option HttpResponse :=
  if r.method = .GET ∧ r.path = "/api/health" then
    some ⟨200, .object [("status", .string "OK"), ("message", .string "Server is running")]⟩
  else if r.method = .POST ∧ r.path = "/api/compress-image" then
    some (compressImage r.file r.formBody enc)
  else if r.method = .POST ∧ r.path = "/api/generate-image" then
    some (generateImage key run r.jsonBody)
  else none

/-- Process a sequence of requests; the handlers share no mutable state, so
the server is the per-request map of `serve`. -/
def serveAll (key : Option String) (run : String → RunOutcome)
    (enc : List Nat → Int → OutFormat → Option (List Nat))
    (rs : List Request) : List (Option HttpResponse) :=
  rs.map (serve key run enc)

/-! ## Shared lemmas -/

theorem extractImageUrl_eq_p0 (v : JSVal) : extractImageUrl v = extractImageUrlP0 v := by
  cases v with
  | array xs => cases xs <;> rfl
  | null => rfl
  | undefined => rfl
  | boolean b => rfl
  | number n => rfl
  | string s => rfl
  | object fs => rfl

theorem outputStage_eq_p0 (o : JSVal) : outputStage o = outputStageP0 o := by
  unfold outputStage outputStageP0
  rw [extractImageUrl_eq_p0]

theorem runStage_eq_p0 (o : RunOutcome) : runStage o = runStageP0 o := by
  cases o with
  | thrown m => rfl
  | ok err out =>
    cases err with
    | some em => rfl
    | none => exact outputStage_eq_p0 out

theorem generateImageCore_eq_p0 (key : Option String) (run : String → RunOutcome)
    (body : JSVal) : generateImageCore key run body = generateImageCoreP0 key run body := by
  unfold generateImageCore generateImageCoreP0
  simp only [runStage_eq_p0]

theorem generateImageRun_not_null (key : Option String) (run : String → RunOutcome)
    (body : JSVal) (h1 : body ≠ .null) (h2 : body ≠ .undefined) :
    generateImageRun key run body = generateImageCore key run body := by
  cases body <;> first | rfl | exact absurd rfl h1 | exact absurd rfl h2

theorem jsTrim_empty : jsTrim "" = "" := rfl

theorem ne_empty_of_trim_ne_empty {s : String} (hs : jsTrim s ≠ "") : s ≠ "" := by
  intro h
  rw [h] at hs
  exact hs jsTrim_empty

/-- Reduction of the generate-image handler on a valid prompt and configured
key: it returns exactly the post-`model.run` stage, having called the model
once with the trimmed prompt. -/
theorem generateImageRun_valid (k : String) (run : String → RunOutcome)
    (body : JSVal) (s : String) (hk : k ≠ "")
    (hp : body.get "prompt" = .string s) (hs : jsTrim s ≠ "") :
    generateImageRun (some k) run body = (runStage (run (jsTrim s)), [jsTrim s]) := by
  have hsne : s ≠ "" := ne_empty_of_trim_ne_empty hs
  have h1 : body ≠ .null := by intro h; rw [h] at hp; exact JSVal.noConfusion hp
  have h2 : body ≠ .undefined := by intro h; rw [h] at hp; exact JSVal.noConfusion hp
  rw [generateImageRun_not_null (some k) run body h1 h2]
  simp only [generateImageCore, hp]
  simp [JSVal.truthy, hsne, hs, hk]

theorem runStage_status (o : RunOutcome) :
    (runStage o).status = 200 ∨ (runStage o).status = 500 := by
  cases o with
  | thrown m => exact Or.inr rfl
  | ok err out =>
    cases err with
    | some em => exact Or.inr rfl
    | none =>
      have hred : runStage (.ok none out) = outputStage out := rfl
      rw [hred]
      simp only [outputStage]
      split
      · exact Or.inr rfl
      · split
        · exact Or.inr rfl
        · exact Or.inl rfl

theorem runStage_shape (o : RunOutcome) :
    ((runStage o).status = 200 ∧ JSVal.get (runStage o).body "success" = .boolean true) ∨
    (((runStage o).status = 400 ∨ (runStage o).status = 500) ∧
      ∃ m : String, JSVal.get (runStage o).body "error" = .string m) := by
  cases o with
  | thrown m => exact Or.inr ⟨Or.inr rfl, jsOrStr m "Internal server error", rfl⟩
  | ok err out =>
    cases err with
    | some em => exact Or.inr ⟨Or.inr rfl, jsOrStr em "Failed to generate image", rfl⟩
    | none =>
      have hred : runStage (.ok none out) = outputStage out := rfl
      rw [hred]
      simp only [outputStage]
      split
      · exact Or.inr ⟨Or.inr rfl, "No output received from the API", rfl⟩
      · split
        · exact Or.inr ⟨Or.inr rfl, "Could not extract image URL from response", rfl⟩
        · exact Or.inl ⟨rfl, rfl⟩

theorem compressImage_some_status (f : UploadedFile) (body : CompressBody)
    (enc : List Nat → Int → OutFormat → Option (List Nat)) :
    (compressImage (some f) body enc).status = 200 ∨
    (compressImage (some f) body enc).status = 500 := by
  simp only [compressImage]
  split
  · exact Or.inr rfl
  · exact Or.inl rfl

/-! ## Claim theorems -/

/-- Claim C9: the `/api/generate-image` handler in `src/index.js` and the one
in `src/unnamed/part_000` are extensionally equal: for every request body,
environment and external-service outcome they produce the same HTTP status
and JSON body (and the same model calls). -/
theorem generate_handlers_extensionally_equal (key : Option String)
    (run : String → RunOutcome) (body : JSVal) :
    generateImageRun key run body = generateImageRunP0 key run body := by
  cases body with
  | null => rfl
  | undefined => rfl
  | boolean b => exact generateImageCore_eq_p0 key run (.boolean b)
  | number n => exact generateImageCore_eq_p0 key run (.number n)
  | string s => exact generateImageCore_eq_p0 key run (.string s)
  | array xs => exact generateImageCore_eq_p0 key run (.array xs)
  | object fs => exact generateImageCore_eq_p0 key run (.object fs)

/-- Claim C7: the handlers keep no server-side state: with the same
environment and the same external-service behaviour, the response to a given
request is the same wherever it occurs in any sequence of processed
requests. -/
theorem handlers_stateless (key : Option String) (run : String → RunOutcome)
    (enc : List Nat → Int → OutFormat → Option (List Nat))
    (rs1 rs2 : List Request) (i j : Nat) (r : Request)
    (h1 : rs1[i]? = some r) (h2 : rs2[j]? = some r) :
    (serveAll key run enc rs1)[i]? = (serveAll key run enc rs2)[j]? := by
  simp only [serveAll, List.getElem?_map, h1, h2]

/-- Witness for C7: the health request gets the same response as the first
request of one run and as the second request of another run with a different
request in between. -/
theorem handlers_stateless_witness :
    (serveAll none (fun _ => .ok none .null) (fun _ _ _ => none)
      [⟨.GET, "/api/health", .null, none, ⟨none, none, none⟩⟩])[0]? =
    (serveAll none (fun _ => .ok none .null) (fun _ _ _ => none)
      [⟨.POST, "/api/generate-image", .null, none, ⟨none, none, none⟩⟩,
       ⟨.GET, "/api/health", .null, none, ⟨none, none, none⟩⟩])[1]? :=
  handlers_stateless none (fun _ => .ok none .null) (fun _ _ _ => none)
    [⟨.GET, "/api/health", .null, none, ⟨none, none, none⟩⟩]
    [⟨.POST, "/api/generate-image", .null, none, ⟨none, none, none⟩⟩,
     ⟨.GET, "/api/health", .null, none, ⟨none, none, none⟩⟩]
    0 1 ⟨.GET, "/api/health", .null, none, ⟨none, none, none⟩⟩ rfl rfl

/-- Claim C8: during a `/api/generate-image` request the model is invoked at
most once, and exactly once — with the trimmed prompt as its only argument —
when the prompt is a non-blank string and the API key is configured. -/
theorem model_invoked_at_most_once (key : Option String)
    (run : String → RunOutcome) (body : JSVal) :
    (generateImageRun key run body).2.length ≤ 1 ∧
    (∀ (k s : String), key = some k → k ≠ "" →
      body.get "prompt" = .string s → jsTrim s ≠ "" →
      (generateImageRun key run body).2 = [jsTrim s]) := by
  constructor
  · have hcore : ∀ b : JSVal, (generateImageCore key run b).2.length ≤ 1 := by
      intro b
      simp only [generateImageCore]
      split
      · simp
      · split
        · split
          · simp
          · split
            · simp
            · split
              · simp
              · simp
        · simp
    cases body with
    | null => simp [generateImageRun]
    | undefined => simp [generateImageRun]
    | boolean b => exact hcore (.boolean b)
    | number n => exact hcore (.number n)
    | string s => exact hcore (.string s)
    | array xs => exact hcore (.array xs)
    | object fs => exact hcore (.object fs)
  · intro k s hkey hk hp hs
    subst hkey
    rw [generateImageRun_valid k run body s hk hp hs]

/-- Witness for C8: a concrete valid request calls the model exactly once
with the trimmed prompt. -/
theorem model_invoked_at_most_once_witness :
    (generateImageRun (some "k") (fun _ => .ok none (.string "u"))
      (.object [("prompt", .string " hi ")])).2 = ["hi"] :=
  (model_invoked_at_most_once (some "k") (fun _ => .ok none (.string "u"))
    (.object [("prompt", .string " hi ")])).2 "k" " hi " rfl
    (by decide) rfl (by decide)

/-- Claim C3: on a non-blank prompt with a configured key, when the provider
returns no error and a truthy output, the handler answers 200 with the image
URL extracted as the claim describes — first array element, the string
itself, or the first truthy of the object's `url`, `image`, `data` fields —
and answers 500 `Could not extract image URL from response` when that
extraction yields nothing truthy. -/
theorem generate_success_relays_image_url (k : String) (run : String → RunOutcome)
    (body : JSVal) (s : String) (output : JSVal)
    (hk : k ≠ "") (hp : body.get "prompt" = .string s) (hs : jsTrim s ≠ "")
    (hrun : run (jsTrim s) = .ok none output) (hout : output.truthy = true) :
    ∃ iu : JSVal,
      iu = (match output with
            | .array xs => (match xs with | [] => JSVal.undefined | x :: _ => x)
            | .string t => .string t
            | .object fs =>
                jsOr (objGet fs "url") (jsOr (objGet fs "image") (objGet fs "data"))
            | _ => JSVal.null) ∧
      (iu.truthy = true →
        generateImage (some k) run body =
          ⟨200, .object [("success", .boolean true), ("imageUrl", iu)]⟩) ∧
      (iu.truthy = false →
        generateImage (some k) run body =
          ⟨500, errBody "Could not extract image URL from response"⟩) := by
  have hred : generateImage (some k) run body = outputStage output := by
    unfold generateImage
    rw [generateImageRun_valid k run body s hk hp hs, hrun]
    rfl
  refine ⟨extractImageUrl output, ?_, ?_, ?_⟩
  · cases output with
    | array xs => cases xs <;> rfl
    | null => rfl
    | undefined => rfl
    | boolean b => rfl
    | number n => rfl
    | string t => rfl
    | object fs => rfl
  · intro ht
    rw [hred]
    simp only [outputStage, hout, ht]
    simp
  · intro hf
    rw [hred]
    simp only [outputStage, hout, hf]
    simp

/-- Witness for C3: a concrete provider output whose first array element is a
string URL is relayed with status 200. -/
theorem generate_success_relays_image_url_witness :
    ∃ iu : JSVal,
      iu = (match JSVal.array [.string "u"] with
            | .array xs => (match xs with | [] => JSVal.undefined | x :: _ => x)
            | .string t => .string t
            | .object fs =>
                jsOr (objGet fs "url") (jsOr (objGet fs "image") (objGet fs "data"))
            | _ => JSVal.null) ∧
      (iu.truthy = true →
        generateImage (some "k") (fun _ => .ok none (.array [.string "u"]))
          (.object [("prompt", .string "hi")]) =
          ⟨200, .object [("success", .boolean true), ("imageUrl", iu)]⟩) ∧
      (iu.truthy = false →
        generateImage (some "k") (fun _ => .ok none (.array [.string "u"]))
          (.object [("prompt", .string "hi")]) =
          ⟨500, errBody "Could not extract image URL from response"⟩) :=
  generate_success_relays_image_url "k" (fun _ => .ok none (.array [.string "u"]))
    (.object [("prompt", .string "hi")]) "hi" (.array [.string "u"])
    (by decide) rfl (by decide) rfl rfl

/-- Claim C10: when the no-error output is an empty array, an array with a
falsy first element, or an object with no truthy `url`/`image`/`data` field,
the handler answers 500 `Could not extract image URL from response` and its
body does not carry `success: true`. -/
theorem generate_unextractable_yields_500 (k : String) (run : String → RunOutcome)
    (body : JSVal) (s : String) (output : JSVal)
    (hk : k ≠ "") (hp : body.get "prompt" = .string s) (hs : jsTrim s ≠ "")
    (hrun : run (jsTrim s) = .ok none output)
    (hshape : output = .array [] ∨
      (∃ x xs, output = .array (x :: xs) ∧ x.truthy = false) ∨
      (∃ fs, output = .object fs ∧ (objGet fs "url").truthy = false ∧
        (objGet fs "image").truthy = false ∧ (objGet fs "data").truthy = false)) :
    generateImage (some k) run body =
      ⟨500, errBody "Could not extract image URL from response"⟩ ∧
    JSVal.get (generateImage (some k) run body).body "success" ≠ .boolean true := by
  have hred : generateImage (some k) run body = outputStage output := by
    unfold generateImage
    rw [generateImageRun_valid k run body s hk hp hs, hrun]
    rfl
  have hout : output.truthy = true := by
    rcases hshape with h | ⟨x, xs, h, _⟩ | ⟨fs, h, _, _, _⟩ <;> subst h <;> rfl
  have hiu : (extractImageUrl output).truthy = false := by
    rcases hshape with h | ⟨x, xs, h, hx⟩ | ⟨fs, h, hu, hi, hd⟩
    · subst h; rfl
    · subst h; exact hx
    · subst h
      simp only [extractImageUrl, jsOr, hu, hi, hd]
      simp [hd]
  have hmain : generateImage (some k) run body =
      ⟨500, errBody "Could not extract image URL from response"⟩ := by
    rw [hred]
    simp only [outputStage, hout, hiu]
    simp
  refine ⟨hmain, ?_⟩
  rw [hmain]
  simp [errBody, JSVal.get, objGet]

/-- Witness for C10: a provider output that is an object with no url, image
or data field yields the 500 extraction error. -/
theorem generate_unextractable_yields_500_witness :
    generateImage (some "k") (fun _ => .ok none (.object [("other", .string "x")]))
      (.object [("prompt", .string "hi")]) =
      ⟨500, errBody "Could not extract image URL from response"⟩ ∧
    JSVal.get (generateImage (some "k")
      (fun _ => .ok none (.object [("other", .string "x")]))
      (.object [("prompt", .string "hi")])).body "success" ≠ .boolean true :=
  generate_unextractable_yields_500 "k"
    (fun _ => .ok none (.object [("other", .string "x")]))
    (.object [("prompt", .string "hi")]) "hi" (.object [("other", .string "x")])
    (by decide) rfl (by decide) rfl
    (Or.inr (Or.inr ⟨[("other", .string "x")], rfl, rfl, rfl, rfl⟩))

/-- The MIME type the claim describes — `image/jpeg` / `image/png` /
`image/webp` by substring tests when the `format` field is `original`
case-insensitively, `image/webp` for every other or absent `format` — is the
MIME type `selectOutput` computes from the sanitized format input. -/
theorem claim_mime_eq_selectOutput (format : Option String) (mime : String) (q : Int) :
    (if (match format with
         | some s0 => jsToLower s0 == "original"
         | none => false) = true then
       (if (jsIncludes mime "jpeg" || jsIncludes mime "jpg") = true then "image/jpeg"
        else if jsIncludes mime "png" = true then "image/png"
        else "image/webp")
     else "image/webp")
    = (selectOutput (effFormatInput format) mime q).2 := by
  cases format with
  | none => rfl
  | some s0 =>
    by_cases h0 : s0 = ""
    · subst h0; rfl
    · simp only [effFormatInput, if_neg h0]
      by_cases ho : jsToLower s0 = "original"
      · simp only [selectOutput, if_pos ho, ho, beq_self_eq_true, if_pos rfl]
        by_cases hj : (jsIncludes mime "jpeg" || jsIncludes mime "jpg") = true
        · simp [hj]
        · by_cases hpng : jsIncludes mime "png" = true
          · simp [hj, hpng]
          · simp [hj, hpng]
      · have hb : (jsToLower s0 == "original") = false := by
          exact beq_eq_false_iff_ne.mpr ho
        simp [selectOutput, ho, hb]

/-- Claim C1: a successful compress-image response carries a `dataUrl` equal
to `data:` + mimeType + `;base64,` + the base64 encoding of the bytes the
codec produced, where mimeType is `image/jpeg` / `image/png` / `image/webp`
chosen from the upload's mimetype when the `format` field is `original`
case-insensitively, and `image/webp` for every other or absent `format`. -/
theorem compress_dataUrl_and_mime (f : UploadedFile) (body : CompressBody)
    (enc : List Nat → Int → OutFormat → Option (List Nat))
    (h200 : (compressImage (some f) body enc).status = 200) :
    ∃ (bytes : List Nat) (mt : String),
      enc f.buffer (effWidth body.width)
        (selectOutput (effFormatInput body.format) f.mimetype (effQuality body.quality)).1
        = some bytes ∧
      mt = (if (match body.format with
                | some s0 => jsToLower s0 == "original"
                | none => false) = true then
              (if (jsIncludes f.mimetype "jpeg" || jsIncludes f.mimetype "jpg") = true then
                "image/jpeg"
               else if jsIncludes f.mimetype "png" = true then "image/png"
               else "image/webp")
            else "image/webp") ∧
      JSVal.get (compressImage (some f) body enc).body "mimeType" = .string mt ∧
      JSVal.get (compressImage (some f) body enc).body "dataUrl" =
        .string ("data:" ++ mt ++ ";base64," ++ base64Encode bytes) := by
  rcases henc : enc f.buffer (effWidth body.width)
      (selectOutput (effFormatInput body.format) f.mimetype (effQuality body.quality)).1
    with _ | bytes
  · exfalso
    simp only [compressImage, henc] at h200
    exact absurd h200 (by decide)
  · refine ⟨bytes,
      (selectOutput (effFormatInput body.format) f.mimetype (effQuality body.quality)).2,
      rfl, (claim_mime_eq_selectOutput body.format f.mimetype (effQuality body.quality)).symm,
      ?_, ?_⟩
    · simp only [compressImage, henc]
      rfl
    · simp only [compressImage, henc]
      rfl

/-- Witness for C1: compressing a jpeg upload with `format=original` under a
codec oracle that returns the three bytes `Man` yields the jpeg MIME type and
the base64 data URL `TWFu`. -/
theorem compress_dataUrl_and_mime_witness :
    (compressImage (some ⟨[1, 2], "image/jpeg", 2⟩)
        ⟨some "55", some "800", some "Original"⟩
        (fun _ _ _ => some [77, 97, 110])).status = 200 ∧
    ∃ (bytes : List Nat) (mt : String),
      (fun _ _ _ => some [77, 97, 110] : List Nat → Int → OutFormat → Option (List Nat))
        [1, 2] (effWidth (some "800"))
        (selectOutput (effFormatInput (some "Original")) "image/jpeg"
          (effQuality (some "55"))).1 = some bytes ∧
      mt = (if (match some "Original" with
                | some s0 => jsToLower s0 == "original"
                | none => false) = true then
              (if (jsIncludes "image/jpeg" "jpeg" || jsIncludes "image/jpeg" "jpg") = true then
                "image/jpeg"
               else if jsIncludes "image/jpeg" "png" = true then "image/png"
               else "image/webp")
            else "image/webp") ∧
      JSVal.get (compressImage (some ⟨[1, 2], "image/jpeg", 2⟩)
        ⟨some "55", some "800", some "Original"⟩
        (fun _ _ _ => some [77, 97, 110])).body "mimeType" = .string mt ∧
      JSVal.get (compressImage (some ⟨[1, 2], "image/jpeg", 2⟩)
        ⟨some "55", some "800", some "Original"⟩
        (fun _ _ _ => some [77, 97, 110])).body "dataUrl" =
        .string ("data:" ++ mt ++ ";base64," ++ base64Encode bytes) :=
  ⟨rfl, compress_dataUrl_and_mime ⟨[1, 2], "image/jpeg", 2⟩
    ⟨some "55", some "800", some "Original"⟩ (fun _ _ _ => some [77, 97, 110]) rfl⟩

/-- Claim C2: the effective quality is the parse of the `quality` field
clamped into 1..100 (80 when the parse is NaN), the effective width is the
parse of the `width` field when finite and positive (1600 otherwise), and the
success response reports exactly these effective values. -/
theorem compress_reports_clamped_params (f : UploadedFile) (body : CompressBody)
    (enc : List Nat → Int → OutFormat → Option (List Nat))
    (h200 : (compressImage (some f) body enc).status = 200) :
    JSVal.get (compressImage (some f) body enc).body "quality" =
      .number (match jsParseIntOpt body.quality with
               | some q => min (max q 1) 100
               | none => 80) ∧
    JSVal.get (compressImage (some f) body enc).body "width" =
      .number (match jsParseIntOpt body.width with
               | some w => if 0 < w then w else 1600
               | none => 1600) := by
  rcases henc : enc f.buffer (effWidth body.width)
      (selectOutput (effFormatInput body.format) f.mimetype (effQuality body.quality)).1
    with _ | bytes
  · exfalso
    simp only [compressImage, henc] at h200
    exact absurd h200 (by decide)
  · constructor
    · simp only [compressImage, henc]
      rfl
    · simp only [compressImage, henc]
      rfl

/-- Witness for C2: quality 250 is reported clamped to 100 and width -3 is
reported as the default 1600. -/
theorem compress_reports_clamped_params_witness :
    (compressImage (some ⟨[1], "image/png", 1⟩) ⟨some "250", some "-3", none⟩
      (fun _ _ _ => some [5])).status = 200 ∧
    JSVal.get (compressImage (some ⟨[1], "image/png", 1⟩) ⟨some "250", some "-3", none⟩
      (fun _ _ _ => some [5])).body "quality" =
      .number (match jsParseIntOpt (some "250") with
               | some q => min (max q 1) 100
               | none => 80) ∧
    JSVal.get (compressImage (some ⟨[1], "image/png", 1⟩) ⟨some "250", some "-3", none⟩
      (fun _ _ _ => some [5])).body "width" =
      .number (match jsParseIntOpt (some "-3") with
               | some w => if 0 < w then w else 1600
               | none => 1600) :=
  ⟨rfl, compress_reports_clamped_params ⟨[1], "image/png", 1⟩
    ⟨some "250", some "-3", none⟩ (fun _ _ _ => some [5]) rfl⟩

theorem generateImage_400_iff (key : Option String) (run : String → RunOutcome)
    (body : JSVal) (h1 : body ≠ .null) (h2 : body ≠ .undefined) :
    generateImage key run body = ⟨400, errBody "Prompt is required"⟩ ↔
      ((body.get "prompt").truthy = false ∨
       ∃ s, body.get "prompt" = .string s ∧ jsTrim s = "") := by
  unfold generateImage
  rw [generateImageRun_not_null key run body h1 h2]
  simp only [generateImageCore]
  split
  next h =>
    exact iff_of_true rfl (Or.inl h)
  next h =>
    split
    next s heq =>
      split
      next htrim =>
        exact iff_of_true rfl (Or.inr ⟨s, heq, htrim⟩)
      next htrim =>
        have hrhs : ¬ ((body.get "prompt").truthy = false ∨
            ∃ t, body.get "prompt" = .string t ∧ jsTrim t = "") := by
          rintro (hf | ⟨t, ht, htt⟩)
          · exact h hf
          · rw [heq] at ht
            injection ht with ht'
            exact htrim (ht' ▸ htt)
        split
        next =>
          apply iff_of_false ?_ hrhs
          intro hEq
          have hst : (500 : Nat) = 400 := congrArg HttpResponse.status hEq
          exact absurd hst (by decide)
        next k =>
          split
          next =>
            apply iff_of_false ?_ hrhs
            intro hEq
            have hst : (500 : Nat) = 400 := congrArg HttpResponse.status hEq
            exact absurd hst (by decide)
          next =>
            apply iff_of_false ?_ hrhs
            intro hEq
            have hst : (runStage (run (jsTrim s))).status = 400 :=
              congrArg HttpResponse.status hEq
            rcases runStage_status (run (jsTrim s)) with hr | hr <;>
              rw [hr] at hst <;> exact absurd hst (by decide)
    next hne =>
      apply iff_of_false
      · intro hEq
        have hst : (500 : Nat) = 400 := congrArg HttpResponse.status hEq
        exact absurd hst (by decide)
      · rintro (hf | ⟨t, ht, htt⟩)
        · exact h hf
        · exact hne t ht

theorem compressImage_400_iff (file : Option UploadedFile) (body : CompressBody)
    (enc : List Nat → Int → OutFormat → Option (List Nat)) :
    compressImage file body enc = ⟨400, errBody "Image file is required"⟩ ↔
      file = none := by
  cases file with
  | none => exact iff_of_true rfl rfl
  | some f =>
    apply iff_of_false
    · intro hEq
      have hst : (compressImage (some f) body enc).status = 400 :=
        congrArg HttpResponse.status hEq
      rcases compressImage_some_status f body enc with hr | hr <;>
        rw [hr] at hst <;> exact absurd hst (by decide)
    · intro h
      exact Option.noConfusion h

/-- Counterexample to claim C4 as stated: the body `prompt: 0` has a prompt
field that is present, is not the empty string and contains no whitespace —
it is not a string at all — yet the handler answers 400 `Prompt is
required`, because `!prompt` is true for every falsy value. -/
theorem prompt_required_counterexample :
    generateImage (some "key") (fun _ => .ok none .null)
      (.object [("prompt", .number 0)]) = ⟨400, errBody "Prompt is required"⟩ ∧
    JSVal.get (.object [("prompt", JSVal.number 0)]) "prompt" ≠ .undefined ∧
    (∀ t : String, JSVal.get (.object [("prompt", JSVal.number 0)]) "prompt" ≠ .string t) := by
  refine ⟨rfl, ?_, ?_⟩
  · intro h
    exact JSVal.noConfusion h
  · intro t h
    exact JSVal.noConfusion h

/-- Claim C4 (amended): for every request body other than `null`/`undefined`
(destructuring those throws and yields a 500), `/api/generate-image` answers
400 `Prompt is required` exactly when the prompt field is falsy — absent,
`null`, `false`, `0` or the empty string — or is a string of only
whitespace; and `/api/compress-image` answers 400 `Image file is required`
exactly when no file was uploaded under the `image` field. -/
theorem validation_400_exactly (key : Option String) (run : String → RunOutcome)
    (body : JSVal) (h1 : body ≠ .null) (h2 : body ≠ .undefined)
    (file : Option UploadedFile) (fbody : CompressBody)
    (enc : List Nat → Int → OutFormat → Option (List Nat)) :
    (generateImage key run body = ⟨400, errBody "Prompt is required"⟩ ↔
      ((body.get "prompt").truthy = false ∨
       ∃ s, body.get "prompt" = .string s ∧ jsTrim s = "")) ∧
    (compressImage file fbody enc = ⟨400, errBody "Image file is required"⟩ ↔
      file = none) :=
  ⟨generateImage_400_iff key run body h1 h2, compressImage_400_iff file fbody enc⟩

/-- Witness for the amended C4: a whitespace-only prompt is rejected with 400
and a missing file is rejected with 400, at concrete inputs. -/
theorem validation_400_exactly_witness :
    (JSVal.object [("prompt", JSVal.string " ")] ≠ JSVal.null ∧
     JSVal.object [("prompt", JSVal.string " ")] ≠ JSVal.undefined) ∧
    (generateImage none (fun _ => .ok none .null)
        (.object [("prompt", .string " ")]) = ⟨400, errBody "Prompt is required"⟩ ↔
      (((JSVal.object [("prompt", JSVal.string " ")]).get "prompt").truthy = false ∨
       ∃ s, (JSVal.object [("prompt", JSVal.string " ")]).get "prompt" = .string s ∧
         jsTrim s = "")) ∧
    (compressImage none ⟨none, none, none⟩ (fun _ _ _ => none) =
        ⟨400, errBody "Image file is required"⟩ ↔
      (none : Option UploadedFile) = none) :=
  ⟨⟨fun h => JSVal.noConfusion h, fun h => JSVal.noConfusion h⟩,
    validation_400_exactly none (fun _ => .ok none .null)
      (.object [("prompt", .string " ")])
      (fun h => JSVal.noConfusion h) (fun h => JSVal.noConfusion h)
      none ⟨none, none, none⟩ (fun _ _ _ => none)⟩

/-- Counterexample to claim C5 as stated: besides the two operations the
server also registers and serves `GET /api/health`, so it does not expose
only two routes. -/
theorem two_routes_counterexample :
    (serve none (fun _ => .ok none .null) (fun _ _ _ => none)
      ⟨.GET, "/api/health", .null, none, ⟨none, none, none⟩⟩).isSome = true ∧
    (Method.GET, "/api/health") ∈ routes ∧
    "/api/health" ≠ "/api/compress-image" ∧
    "/api/health" ≠ "/api/generate-image" ∧
    routes.length ≠ 2 := by
  refine ⟨rfl, ?_, ?_, ?_, ?_⟩ <;> decide

/-- Claim C5 (amended): the server exposes exactly three routes — the two
operations plus the `GET /api/health` health check — and dispatch succeeds
exactly on those three. -/
theorem exactly_three_routes (key : Option String) (run : String → RunOutcome)
    (enc : List Nat → Int → OutFormat → Option (List Nat)) (r : Request) :
    ((serve key run enc r).isSome = true ↔ (r.method, r.path) ∈ routes) ∧
    routes = [(.GET, "/api/health"), (.POST, "/api/compress-image"),
              (.POST, "/api/generate-image")] := by
  refine ⟨?_, rfl⟩
  rcases r with ⟨m, p, jb, fl, fb⟩
  by_cases hh : m = Method.GET ∧ p = "/api/health"
  · simp [serve, routes, hh.1, hh.2]
  · by_cases hc : m = Method.POST ∧ p = "/api/compress-image"
    · simp [serve, routes, hc.1, hc.2, hh]
    · by_cases hg : m = Method.POST ∧ p = "/api/generate-image"
      · simp [serve, routes, hg.1, hg.2, hh, hc]
      · simp [serve, routes, hh, hc, hg]

theorem generateImageCore_shape (key : Option String) (run : String → RunOutcome)
    (b : JSVal) :
    ((generateImageCore key run b).1.status = 200 ∧
       JSVal.get (generateImageCore key run b).1.body "success" = .boolean true) ∨
    (((generateImageCore key run b).1.status = 400 ∨
      (generateImageCore key run b).1.status = 500) ∧
       ∃ m : String, JSVal.get (generateImageCore key run b).1.body "error" = .string m) := by
  simp only [generateImageCore]
  split
  · exact Or.inr ⟨Or.inl rfl, "Prompt is required", rfl⟩
  · split
    · split
      · exact Or.inr ⟨Or.inl rfl, "Prompt is required", rfl⟩
      · split
        · exact Or.inr ⟨Or.inr rfl, "Bytez API key is not configured", rfl⟩
        · split
          · exact Or.inr ⟨Or.inr rfl, "Bytez API key is not configured", rfl⟩
          · exact runStage_shape _
    · exact Or.inr ⟨Or.inr rfl, trimNotFunctionMsg, rfl⟩

theorem generateImage_shape (key : Option String) (run : String → RunOutcome)
    (b : JSVal) :
    ((generateImage key run b).status = 200 ∧
       JSVal.get (generateImage key run b).body "success" = .boolean true) ∨
    (((generateImage key run b).status = 400 ∨ (generateImage key run b).status = 500) ∧
       ∃ m : String, JSVal.get (generateImage key run b).body "error" = .string m) := by
  cases b with
  | null => exact Or.inr ⟨Or.inr rfl, destructureNullMsg, rfl⟩
  | undefined => exact Or.inr ⟨Or.inr rfl, destructureUndefMsg, rfl⟩
  | boolean x => exact generateImageCore_shape key run (.boolean x)
  | number x => exact generateImageCore_shape key run (.number x)
  | string x => exact generateImageCore_shape key run (.string x)
  | array x => exact generateImageCore_shape key run (.array x)
  | object x => exact generateImageCore_shape key run (.object x)

theorem compressImage_shape (file : Option UploadedFile) (fbody : CompressBody)
    (enc : List Nat → Int → OutFormat → Option (List Nat)) :
    ((compressImage file fbody enc).status = 200 ∧
       JSVal.get (compressImage file fbody enc).body "success" = .boolean true) ∨
    (((compressImage file fbody enc).status = 400 ∨
      (compressImage file fbody enc).status = 500) ∧
       ∃ m : String, JSVal.get (compressImage file fbody enc).body "error" = .string m) := by
  cases file with
  | none => exact Or.inr ⟨Or.inl rfl, "Image file is required", rfl⟩
  | some f =>
    rcases henc : enc f.buffer (effWidth fbody.width)
        (selectOutput (effFormatInput fbody.format) f.mimetype (effQuality fbody.quality)).1
      with _ | bytes
    · simp only [compressImage, henc]
      exact Or.inr ⟨by simp,
        "Failed to compress image. Please try again with a different file.", rfl⟩
    · simp only [compressImage, henc]
      exact Or.inl ⟨by simp, rfl⟩

/-- Claim C6: every response of the two operations is a JSON object that
carries `success: true` on status 200 or an error string on status 400 or
500, whatever the external services return. -/
theorem responses_success_or_error (key : Option String) (run : String → RunOutcome)
    (enc : List Nat → Int → OutFormat → Option (List Nat))
    (file : Option UploadedFile) (fbody : CompressBody) (jbody : JSVal) :
    (((compressImage file fbody enc).status = 200 ∧
        JSVal.get (compressImage file fbody enc).body "success" = .boolean true) ∨
     (((compressImage file fbody enc).status = 400 ∨
       (compressImage file fbody enc).status = 500) ∧
        ∃ m : String, JSVal.get (compressImage file fbody enc).body "error" = .string m)) ∧
    (((generateImage key run jbody).status = 200 ∧
        JSVal.get (generateImage key run jbody).body "success" = .boolean true) ∨
     (((generateImage key run jbody).status = 400 ∨
       (generateImage key run jbody).status = 500) ∧
        ∃ m : String, JSVal.get (generateImage key run jbody).body "error" = .string m)) :=
  ⟨compressImage_shape file fbody enc, generateImage_shape key run jbody⟩